import Mathlib

/-!
Shallow embedding of `reddit_frustration_scraper.py` (class
`RedditFrustrationScraper`) and proofs about its filtering, selection and
aggregation pipeline.

Python strings are modelled as `List Char`, with `str.lower` as a per-char
`Char.toLower` map and Python's `in` (substring test) as `List.IsInfix`.
Machine integers (scores, counts) are modelled as `Int`.  The lazy PRAW
submission listing for one subreddit is modelled by `FetchOutcome`: either the
full delivered list (`ok`), or a delivered prefix after which the listing
raised a `ResponseException` (`errAfter`) — PRAW listings are lazy, so the
exception can fire mid-iteration, inside the `try` of `scrape_subreddit`.
-/

/-- A raw PRAW comment as `_get_top_comments` sees it.  `body = none` models a
comment-tree entry without a `body` attribute (the `hasattr(comment, 'body')`
guard), e.g. a `MoreComments` placeholder. -/
structure RawComment where
  id : List Char
  body : Option (List Char)
  score : Int
  author : Option (List Char)
  deriving DecidableEq

/-- A raw PRAW submission with the attributes the scraper reads. -/
structure Submission where
  id : List Char
  title : List Char
  selftext : List Char
  score : Int
  num_comments : Int
  created_utc : Int
  over_18 : Bool
  author : Option (List Char)
  url : List Char
  permalink : List Char
  comments : List RawComment
  deriving DecidableEq

/-- The `filters` section of `config.json`. -/
structure Filters where
  min_score : Int
  min_comments : Int
  exclude_nsfw : Bool
  exclude_deleted : Bool
  deriving DecidableEq

/-- The `output` section of `config.json` (fields the core logic reads). -/
structure OutputConfig where
  include_comments : Bool
  max_comments : Nat
  deriving DecidableEq

/-- The parts of the loaded configuration that the pipeline reads. -/
structure Config where
  keywords : List (List Char)
  subreddits : List (List Char)
  filters : Filters
  output : OutputConfig
  deriving DecidableEq

/-- Embeds `str(x.author) if x.author else '[deleted]'`. -/
def resolveAuthor (author : Option (List Char)) : List Char :=
  author.getD "[deleted]".toList

/-- Python `str.lower()` (per-character case fold). -/
def pyLower (s : List Char) : List Char :=
  s.map Char.toLower

/-- Embeds `_contains_frustration_keywords(self, text)`:
`any(keyword.lower() in text_lower for keyword in keywords)` where
`text_lower = text.lower()`. -/
def _contains_frustration_keywords (keywords : List (List Char)) (text : List Char) : Bool :=
  let text_lower := pyLower text
  keywords.any (fun keyword => decide (pyLower keyword <:+: text_lower))

/-- Embeds `_meets_filter_criteria(self, submission)`: four early-return checks. -/
def _meets_filter_criteria (filters : Filters) (submission : Submission) : Bool :=
  if submission.score < filters.min_score then false
  else if submission.num_comments < filters.min_comments then false
  else if filters.exclude_nsfw && submission.over_18 then false
  else if filters.exclude_deleted && submission.selftext == "[deleted]".toList then false
  else true

/-- One record of `post_data['comments']`. -/
structure CommentData where
  id : List Char
  body : List Char
  score : Int
  author : List Char
  deriving DecidableEq

/-- The dict appended for one comment in `_get_top_comments`. -/
def mkCommentData (comment : RawComment) : CommentData :=
  { id := comment.id
    body := comment.body.getD []
    score := comment.score
    author := resolveAuthor comment.author }

/-- Embeds `_get_top_comments(self, submission)`: slice `submission.comments[:max_comments]`
first, then keep only entries with a `body` attribute.  (`replace_more(limit=0)`
only drops placeholder expansion; the sequence iterated is the comment list.) -/
def _get_top_comments (max_comments : Nat) (submission : Submission) : List CommentData :=
  ((submission.comments.take max_comments).filter (fun c => c.body.isSome)).map mkCommentData

/-- The `post_data` dict built in `scrape_subreddit`. -/
structure PostData where
  id : List Char
  title : List Char
  selftext : List Char
  score : Int
  num_comments : Int
  created_utc : Int
  subreddit : List Char
  url : List Char
  permalink : List Char
  author : List Char
  comments : Option (List CommentData)
  deriving DecidableEq

/-- The per-submission accept/reject/enrich decision of the loop body in
`scrape_subreddit` (lines 113-137): keyword gate on title or selftext, then
the filter gate, then the `post_data` record (with comments only when
`include_comments` is set). -/
def selectSubmission (config : Config) (subreddit_name : List Char)
    (submission : Submission) : Option PostData :=
  if _contains_frustration_keywords config.keywords submission.title ||
      _contains_frustration_keywords config.keywords submission.selftext then
    if _meets_filter_criteria config.filters submission then
      some
        { id := submission.id
          title := submission.title
          selftext := submission.selftext
          score := submission.score
          num_comments := submission.num_comments
          created_utc := submission.created_utc
          subreddit := subreddit_name
          url := submission.url
          permalink := "https://reddit.com".toList ++ submission.permalink
          author := resolveAuthor submission.author
          comments :=
            if config.output.include_comments then
              some (_get_top_comments config.output.max_comments submission)
            else none }
    else none
  else none

/-- Outcome of iterating one subreddit's lazy submission listing inside the
`try` block: either it completes (`ok`), or a `ResponseException` is raised
after a delivered prefix (`errAfter`) — possibly before any submission. -/
inductive FetchOutcome where
  | ok (subs : List Submission)
  | errAfter (subs : List Submission)
  deriving DecidableEq

/-- Embeds `scrape_subreddit(self, subreddit_name)`: run every delivered submission
through the selection logic; a `ResponseException` is caught and logged, and
the `posts` accumulated so far are returned (`return posts` sits after the
`except` block). -/
def scrape_subreddit (config : Config) (subreddit_name : List Char)
    (outcome : FetchOutcome) : List PostData :=
  match outcome with
  | .ok subs => subs.filterMap (selectSubmission config subreddit_name)
  | .errAfter subs => subs.filterMap (selectSubmission config subreddit_name)

/-- Embeds `scrape_all_subreddits(self)`: `all_posts.extend(...)` over the configured
subreddits in order.  `outcomes` maps each subreddit name to its fetch
outcome. -/
def scrape_all_subreddits (config : Config) (outcomes : List Char → FetchOutcome) :
    List PostData :=
  config.subreddits.foldl
    (fun all_posts subreddit => all_posts ++ scrape_subreddit config subreddit (outcomes subreddit))
    []

/-- Observable side effect of `run`. -/
inductive Effect where
  | savedOutput (posts : List PostData)
  | printedSummary (total : Nat)
  | warnedNoPosts
  deriving DecidableEq

/-- Embeds `run(self)`: scrape everything; `if posts:` save and print the summary,
`else:` log the warning.  Returns the effect trace. -/
def run (config : Config) (outcomes : List Char → FetchOutcome) : List Effect :=
  let posts := scrape_all_subreddits config outcomes
  if posts ≠ [] then
    [Effect.savedOutput posts, Effect.printedSummary posts.length]
  else
    [Effect.warnedNoPosts]

/-- How initialization (`__init__`) resolves: `_load_config` raises
`FileNotFoundError` for a missing file, `_initialize_reddit` calls
`sys.exit(1)` on `OAuthException`, otherwise the scraper is built. -/
inductive InitOutcome where
  | missingConfigFile
  | authFailed
  | initOk (config : Config)

/-- Embeds `main()` (named `pyMain` because Lean reserves `main`): a `FileNotFoundError` propagates to `except Exception` which
prints and calls `sys.exit(1)`; the `OAuthException` handler already exited
with 1 (`SystemExit` is not an `Exception`, so it is not re-caught); otherwise
`run` executes and the process falls off `main` with exit code 0.  Result is
(exit code, effect trace). -/
def pyMain (init : InitOutcome) (outcomes : List Char → FetchOutcome) : Nat × List Effect :=
  match init with
  | .missingConfigFile => (1, [])
  | .authFailed => (1, [])
  | .initOk config => (0, run config outcomes)

/-! ## Helper lemmas -/

/-- Folding `acc ++ f b` over a list is `acc` followed by the concatenation of
the images. -/
theorem foldl_append_eq_join {α β : Type} (f : β → List α) (l : List β) (acc : List α) :
    l.foldl (fun a b => a ++ f b) acc = acc ++ (l.map f).flatten := by
  induction l generalizing acc with
  | nil => simp
  | cons x xs ih => simp [ih, List.append_assoc]

/-- Characterization of `_meets_filter_criteria` as the conjunction of the four
criteria (shared by several theorems below). -/
theorem meetsFilter_eq_true_iff (filters : Filters) (s : Submission) :
    _meets_filter_criteria filters s = true ↔
      (filters.min_score ≤ s.score ∧ filters.min_comments ≤ s.num_comments ∧
        ¬(filters.exclude_nsfw = true ∧ s.over_18 = true) ∧
        ¬(filters.exclude_deleted = true ∧ s.selftext = "[deleted]".toList)) := by
  unfold _meets_filter_criteria
  split_ifs with h1 h2 h3 h4 <;>
    simp_all [Bool.and_eq_true, not_lt, beq_iff_eq]

/-! ## Concrete fixtures (from the repository's test configuration) -/

/-- The `filters` block of the test config. -/
def exFilters : Filters :=
  { min_score := 1, min_comments := 0, exclude_nsfw := true, exclude_deleted := true }

/-- Subreddit name used in examples. -/
def exName : List Char := "test_subreddit".toList

/-- Config mirroring `tests/test_scraper.py`'s fixture (comments disabled). -/
def exConfig : Config :=
  { keywords := ["frustrat".toList, "annoying".toList, "irritat".toList]
    subreddits := [exName]
    filters := exFilters
    output := { include_comments := false, max_comments := 5 } }

/-- A submission that matches a keyword and passes every filter. -/
def exSubmission : Submission :=
  { id := "p1".toList
    title := "This is frustrating".toList
    selftext := []
    score := 10
    num_comments := 5
    created_utc := 0
    over_18 := false
    author := some ("alice".toList)
    url := "https://example.com/p1".toList
    permalink := "/r/test/p1".toList
    comments := [] }

/-- The record `scrape_subreddit` builds for `exSubmission`. -/
def exPost : PostData :=
  { id := "p1".toList
    title := "This is frustrating".toList
    selftext := []
    score := 10
    num_comments := 5
    created_utc := 0
    subreddit := exName
    url := "https://example.com/p1".toList
    permalink := "https://reddit.com".toList ++ "/r/test/p1".toList
    author := "alice".toList
    comments := none }


/-! ## Claim theorems -/

/-- C1: a curated record is produced only if the submission passes the keyword
matcher on its title or body and independently passes the quality filter; a
rejected submission yields `none` (no partial records, since the result type is
`Option PostData`). -/
theorem select_requires_both_gates (config : Config) (subreddit_name : List Char)
    (submission : Submission) (post : PostData)
    (h : selectSubmission config subreddit_name submission = some post) :
    (_contains_frustration_keywords config.keywords submission.title = true ∨
      _contains_frustration_keywords config.keywords submission.selftext = true) ∧
    _meets_filter_criteria config.filters submission = true := by
  unfold selectSubmission at h
  split_ifs at h with h1 h2
  all_goals exact ⟨Bool.or_eq_true_iff.mp h1, h2⟩

/-- Witness for C1 at the repository's own test fixture. -/
theorem select_requires_both_gates_witness :
    (_contains_frustration_keywords exConfig.keywords exSubmission.title = true ∨
      _contains_frustration_keywords exConfig.keywords exSubmission.selftext = true) ∧
    _meets_filter_criteria exConfig.filters exSubmission = true :=
  select_requires_both_gates exConfig exName exSubmission exPost (by decide)

/-- C3 counterexample: the keyword list containing only the empty string is a
non-empty keyword set, yet the empty text matches it (Python's `'' in ''` is
`True`), so "matches returns false for the empty text given any non-empty
keyword set" fails. -/
theorem contains_keywords_empty_text_counterexample :
    ([[]] : List (List Char)) ≠ [] ∧ _contains_frustration_keywords [[]] [] = true := by
  constructor
  · decide
  · decide

/-- C3 (amended): `matches(T, K)` is true iff some keyword in `K`, case-folded,
occurs as a contiguous substring of case-folded `T`; and the empty text returns
false for every non-empty keyword set whose keywords are all non-empty. -/
theorem contains_keywords_iff (text : List Char) (keywords : List (List Char))
    (_hne : keywords ≠ []) (hk : ∀ k ∈ keywords, k ≠ []) :
    (_contains_frustration_keywords keywords text = true ↔
      ∃ k ∈ keywords, pyLower k <:+: pyLower text) ∧
    _contains_frustration_keywords keywords [] = false := by
  constructor
  · simp [_contains_frustration_keywords, List.any_eq_true]
  · rw [Bool.eq_false_iff]
    intro habs
    rw [_contains_frustration_keywords, List.any_eq_true] at habs
    obtain ⟨k, hkmem, hdec⟩ := habs
    rw [decide_eq_true_eq] at hdec
    obtain ⟨s, t, hst⟩ := hdec
    have hknil : pyLower k = [] := by
      have : pyLower [] = [] := rfl
      rw [this] at hst
      exact (List.append_eq_nil.mp (List.append_eq_nil.mp hst).1).2
    exact hk k hkmem (List.map_eq_nil_iff.mp hknil)

/-- Witness for C3 (amended) at a concrete keyword set and text. -/
theorem contains_keywords_iff_witness :
    (_contains_frustration_keywords exConfig.keywords ("So ANNOYING today".toList) = true ↔
      ∃ k ∈ exConfig.keywords, pyLower k <:+: pyLower ("So ANNOYING today".toList)) ∧
    _contains_frustration_keywords exConfig.keywords [] = false :=
  contains_keywords_iff ("So ANNOYING today".toList) exConfig.keywords
    (by decide) (by decide)

/-- C4: the quality filter is the logical AND of the four criteria — it is
false whenever any single criterion is violated, regardless of the others, and
true exactly when all four checks pass. -/
theorem meets_filter_criteria_correct (filters : Filters) (s : Submission) :
    (s.score < filters.min_score → _meets_filter_criteria filters s = false) ∧
    (s.num_comments < filters.min_comments → _meets_filter_criteria filters s = false) ∧
    (filters.exclude_nsfw = true → s.over_18 = true → _meets_filter_criteria filters s = false) ∧
    (filters.exclude_deleted = true → s.selftext = "[deleted]".toList →
      _meets_filter_criteria filters s = false) ∧
    (_meets_filter_criteria filters s = true ↔
      (filters.min_score ≤ s.score ∧ filters.min_comments ≤ s.num_comments ∧
        ¬(filters.exclude_nsfw = true ∧ s.over_18 = true) ∧
        ¬(filters.exclude_deleted = true ∧ s.selftext = "[deleted]".toList))) := by
  have hiff := meetsFilter_eq_true_iff filters s
  refine ⟨?_, ?_, ?_, ?_, hiff⟩ <;> intro h1 <;>
    first
    | (rw [Bool.eq_false_iff]; intro habs; have := hiff.mp habs; omega)
    | (intro h2; rw [Bool.eq_false_iff]; intro habs; exact (hiff.mp habs).2.2.1 ⟨h1, h2⟩)
    | (intro h2; rw [Bool.eq_false_iff]; intro habs; exact (hiff.mp habs).2.2.2 ⟨h1, h2⟩)

/-- Witness for C4: a keyword-matching submission with score 0 under
`min_score = 1` is rejected by the first criterion alone. -/
theorem meets_filter_criteria_correct_witness :
    _meets_filter_criteria exFilters { exSubmission with score := 0 } = false :=
  (meets_filter_criteria_correct exFilters { exSubmission with score := 0 }).1 (by decide)

/-- C9: with the other three criteria met and `exclude_deleted` set, the
removed-body check rejects exactly the body that is the literal string
`[deleted]`; any other body (e.g. `[removed]`, or a longer body containing the
sentinel) passes. -/
theorem deleted_sentinel_exact (filters : Filters) (s : Submission)
    (hdel : filters.exclude_deleted = true)
    (hscore : filters.min_score ≤ s.score)
    (hcom : filters.min_comments ≤ s.num_comments)
    (hnsfw : ¬(filters.exclude_nsfw = true ∧ s.over_18 = true)) :
    _meets_filter_criteria filters s = true ↔ s.selftext ≠ "[deleted]".toList := by
  rw [meetsFilter_eq_true_iff]
  constructor
  · intro h
    exact fun habs => h.2.2.2 ⟨hdel, habs⟩
  · intro h
    exact ⟨hscore, hcom, hnsfw, fun habs => h habs.2⟩

/-- Witness for C9: under the test filters, the body `[removed]` passes the
removed-body check while the body `[deleted]` fails it. -/
theorem deleted_sentinel_exact_witness :
    _meets_filter_criteria exFilters { exSubmission with selftext := "[removed]".toList } = true ∧
    ¬ _meets_filter_criteria exFilters { exSubmission with selftext := "[deleted]".toList } = true :=
  ⟨(deleted_sentinel_exact exFilters { exSubmission with selftext := "[removed]".toList }
      (by decide) (by decide) (by decide) (by decide)).mpr (by decide),
    fun habs =>
      ((deleted_sentinel_exact exFilters { exSubmission with selftext := "[deleted]".toList }
        (by decide) (by decide) (by decide) (by decide)).mp habs) (by decide)⟩

/-- C5: the comment extractor returns at most `max_comments` comments, drawn
from the front slice `comments[:max_comments]`, and the result is the image of
a sublist of the input sequence, so relative order is preserved (never
re-sorted). -/
theorem get_top_comments_bounded_ordered (max_comments : Nat) (submission : Submission) :
    (_get_top_comments max_comments submission).length ≤ max_comments ∧
    ∃ l, List.Sublist l (submission.comments.take max_comments) ∧
      List.Sublist l submission.comments ∧
      _get_top_comments max_comments submission = l.map mkCommentData := by
  refine ⟨?_, (submission.comments.take max_comments).filter (fun c => c.body.isSome),
    List.filter_sublist _, (List.filter_sublist _).trans (List.take_sublist _ _), rfl⟩
  calc (_get_top_comments max_comments submission).length
      = ((submission.comments.take max_comments).filter (fun c => c.body.isSome)).length := by
        simp [_get_top_comments]
    _ ≤ (submission.comments.take max_comments).length := List.length_filter_le _ _
    _ ≤ max_comments := List.length_take_le _ _

/-- C8: the extractor truncates to the first `max_comments` entries before
skipping bodyless entries, so a bodyless entry in the front slice makes the
result strictly shorter than `max_comments`, and entries beyond the slice are
never consulted. -/
theorem get_top_comments_truncates_before_skip (max_comments : Nat) (submission : Submission)
    (h : ∃ c ∈ submission.comments.take max_comments, c.body = none) :
    (_get_top_comments max_comments submission).length < max_comments ∧
    _get_top_comments max_comments submission =
      _get_top_comments max_comments
        { submission with comments := submission.comments.take max_comments } := by
  constructor
  · have hlt : ((submission.comments.take max_comments).filter
        (fun c => c.body.isSome)).length < (submission.comments.take max_comments).length := by
      rw [List.length_filter_lt_length_iff_exists]
      obtain ⟨c, hc, hnone⟩ := h
      exact ⟨c, hc, by simp [hnone]⟩
    have hle := List.length_take_le max_comments submission.comments
    have : (_get_top_comments max_comments submission).length =
        ((submission.comments.take max_comments).filter (fun c => c.body.isSome)).length := by
      simp [_get_top_comments]
    omega
  · simp [_get_top_comments, List.take_take]

/-- A comment-tree entry without a `body` attribute. -/
def exNoBody : RawComment :=
  { id := "c0".toList, body := none, score := 1, author := none }

/-- A normal comment with a body. -/
def exComment1 : RawComment :=
  { id := "c1".toList, body := some ("first".toList), score := 2, author := some ("bob".toList) }

/-- A later normal comment, sitting beyond the front slice in the C8 witness. -/
def exComment2 : RawComment :=
  { id := "c2".toList, body := some ("second".toList), score := 3, author := none }

/-- Submission whose first two comment entries include a bodyless one, with a
body-bearing comment after position 2. -/
def exSubWithComments : Submission :=
  { exSubmission with comments := [exNoBody, exComment1, exComment2] }

/-- Witness for C8: with `max_comments = 2`, the bodyless first entry shrinks
the result below 2 even though `exComment2` (with a body) exists at index 2. -/
theorem get_top_comments_truncates_before_skip_witness :
    (_get_top_comments 2 exSubWithComments).length < 2 ∧
    _get_top_comments 2 exSubWithComments =
      _get_top_comments 2
        { exSubWithComments with comments := exSubWithComments.comments.take 2 } :=
  get_top_comments_truncates_before_skip 2 exSubWithComments ⟨exNoBody, by decide, rfl⟩

/-- Shared helper: the aggregation fold is the concatenation of the
per-subreddit results in configured order. -/
theorem scrape_all_subreddits_eq_flatten (config : Config)
    (outcomes : List Char → FetchOutcome) :
    scrape_all_subreddits config outcomes =
      (config.subreddits.map (fun s => scrape_subreddit config s (outcomes s))).flatten :=
  (foldl_append_eq_join (fun s => scrape_subreddit config s (outcomes s))
      config.subreddits []).trans (List.nil_append _)

/-- C2 counterexample: a community whose listing delivers one matching
submission and then raises a source-level error contributes one post, not
zero — the `except` handler returns the posts accumulated before the error. -/
theorem scrape_error_partial_contribution_counterexample :
    (scrape_subreddit exConfig exName (FetchOutcome.errAfter [exSubmission])).length = 1 ∧
    (scrape_all_subreddits exConfig
      (fun _ => FetchOutcome.errAfter [exSubmission])).length = 1 := by
  constructor
  · decide
  · decide

/-- C2 (amended): a community's source-level error never aborts the run — the
errored community contributes exactly the posts curated from submissions
delivered before the error (zero when the error precedes any delivery), and
every other community's contribution is unaffected (the aggregate is always
the concatenation of per-community results). -/
theorem scrape_failure_isolation (config : Config) (subreddit_name : List Char)
    (subs : List Submission) (outcomes : List Char → FetchOutcome) :
    scrape_subreddit config subreddit_name (FetchOutcome.errAfter subs) =
      scrape_subreddit config subreddit_name (FetchOutcome.ok subs) ∧
    scrape_subreddit config subreddit_name (FetchOutcome.errAfter []) = [] ∧
    scrape_all_subreddits config outcomes =
      (config.subreddits.map (fun s => scrape_subreddit config s (outcomes s))).flatten :=
  ⟨rfl, rfl, scrape_all_subreddits_eq_flatten config outcomes⟩

/-- C6: the aggregated output is the concatenation of each community's curated
posts in configured order, and its length is the sum of the per-community
counts that `scrape_all_subreddits` logs. -/
theorem scrape_all_concat_counts (config : Config) (outcomes : List Char → FetchOutcome) :
    scrape_all_subreddits config outcomes =
      (config.subreddits.map (fun s => scrape_subreddit config s (outcomes s))).flatten ∧
    (scrape_all_subreddits config outcomes).length =
      (config.subreddits.map (fun s => (scrape_subreddit config s (outcomes s)).length)).sum := by
  have hjoin := scrape_all_subreddits_eq_flatten config outcomes
  refine ⟨hjoin, ?_⟩
  rw [hjoin, List.length_flatten, List.map_map]
  rfl

/-- C7: the process exits with code 1 exactly on the fatal initialization
errors (missing configuration file, failed authentication) and with code 0
otherwise; when zero posts matched it exits 0 and emits only the
warning-level log line. -/
theorem exit_codes (config : Config) (outcomes : List Char → FetchOutcome) :
    (pyMain InitOutcome.missingConfigFile outcomes).1 = 1 ∧
    (pyMain InitOutcome.authFailed outcomes).1 = 1 ∧
    (pyMain (InitOutcome.initOk config) outcomes).1 = 0 ∧
    (scrape_all_subreddits config outcomes = [] →
      (pyMain (InitOutcome.initOk config) outcomes).2 = [Effect.warnedNoPosts]) := by
  refine ⟨rfl, rfl, rfl, fun h => ?_⟩
  simp [pyMain, run, h]

/-- A config with no subreddits, so the aggregate is empty. -/
def emptyConfig : Config := { exConfig with subreddits := [] }

/-- All-ok fetch outcomes delivering no submissions. -/
def emptyOutcomes : List Char → FetchOutcome := fun _ => FetchOutcome.ok []

/-- Witness for C7: a successfully initialized run that matches zero posts
exits 0 with only the warning effect. -/
theorem exit_codes_witness :
    (pyMain (InitOutcome.initOk emptyConfig) emptyOutcomes).1 = 0 ∧
    (pyMain (InitOutcome.initOk emptyConfig) emptyOutcomes).2 = [Effect.warnedNoPosts] :=
  ⟨(exit_codes emptyConfig emptyOutcomes).2.2.1,
    (exit_codes emptyConfig emptyOutcomes).2.2.2 rfl⟩

/-- C10: when the aggregated result list is empty the sink is never invoked
(no save effect appears in the trace), and a save effect appears only when at
least one post was curated. -/
theorem no_save_when_empty (config : Config) (outcomes : List Char → FetchOutcome) :
    (scrape_all_subreddits config outcomes = [] →
      ∀ ps, Effect.savedOutput ps ∉ run config outcomes) ∧
    (∀ ps, Effect.savedOutput ps ∈ run config outcomes →
      scrape_all_subreddits config outcomes ≠ []) := by
  constructor
  · intro h ps hmem
    rw [run] at hmem
    simp only [h] at hmem
    simp at hmem
  · intro ps hmem h
    rw [run] at hmem
    simp only [h] at hmem
    simp at hmem

/-- Witness for C10: the empty run produces no save effect. -/
theorem no_save_when_empty_witness :
    Effect.savedOutput [] ∉ run emptyConfig emptyOutcomes :=
  (no_save_when_empty emptyConfig emptyOutcomes).1 rfl []
